import Mathlib

/-!
Verification of the credential-lifecycle and event-dispatch core of the
queue-orquestration repository (auth-service, gateway, notification-service).

The Python source is shallowly embedded: Python dicts become association
lists (`Claims`), Python string operations (`str.startswith`,
`str.replace`) are re-implemented over the character list of a `String`
with Python semantics, Python truthiness is made explicit (`truthyStr`,
`truthyVal`), and functions that may let a Python exception escape return
a result type with an explicit `raised` alternative.  External
collaborators (the flask cache client, the jwt library, the kafka client)
enter as parameters or as small structural models, documented at their
definitions.
-/

namespace QueueOrq

/-- Values carried in a Python dict / JSON payload (the subset the claims
need: strings, integers, booleans, and Python `None`). -/
inductive Val where
  | str (s : String)
  | int (n : Int)
  | bool (b : Bool)
  | pyNone
deriving DecidableEq, Repr

/-- A Python dict with string keys, as an insertion-ordered association
list (keys are unique in every dict the program builds). -/
abbrev Claims : Type := List (String × Val)

/-- Equality of `Except` results is decidable when both components are;
needed to evaluate witness environments. -/
instance {ε α : Type} [DecidableEq ε] [DecidableEq α] :
    DecidableEq (Except ε α) := fun x y =>
  match x, y with
  | .ok a, .ok b =>
      if h : a = b then .isTrue (by rw [h])
      else .isFalse (by intro hc; cases hc; exact h rfl)
  | .error a, .error b =>
      if h : a = b then .isTrue (by rw [h])
      else .isFalse (by intro hc; cases hc; exact h rfl)
  | .ok _, .error _ => .isFalse (by intro hc; cases hc)
  | .error _, .ok _ => .isFalse (by intro hc; cases hc)

/-- Dict lookup: first binding of the key, if present. -/
def lookupClaim (c : Claims) (k : String) : Option Val :=
  match c with
  | [] => none
  | (k', v) :: rest => if k' = k then some v else lookupClaim rest k

/-- Python dict assignment `d[k] = v`: overwrite the existing binding in
place, or append a new one at the end. -/
def insertClaim (c : Claims) (k : String) (v : Val) : Claims :=
  match c with
  | [] => [(k, v)]
  | (k', v') :: rest =>
      if k' = k then (k', v) :: rest else (k', v') :: insertClaim rest k v

/-- Python truthiness of an optional string (e.g. `cache.get(...)` or
`headers.get(...)`): `None` and the empty string are falsy. -/
def truthyStr : Option String → Bool
  | none => false
  | some s => s ≠ ""

/-- Python truthiness of a `Val` (used by `if not args[0]['is_admin']`). -/
def truthyVal : Val → Bool
  | .str s => s ≠ ""
  | .int n => n ≠ 0
  | .bool b => b
  | .pyNone => false

/-- Python `s.startswith(pre)`. -/
def pyStartswith (s pre : String) : Bool :=
  pre.data.isPrefixOf s.data

/-- Fuel-driven body of Python `str.replace`: replaces every
non-overlapping occurrence of `old` (assumed nonempty) left to right.
The fuel is the length of the subject, which bounds the recursion. -/
def replaceFuel (old new : List Char) : Nat → List Char → List Char
  | 0, s => s
  | _ + 1, [] => []
  | fuel + 1, c :: rest =>
      if old.isPrefixOf (c :: rest) then
        new ++ replaceFuel old new fuel ((c :: rest).drop old.length)
      else
        c :: replaceFuel old new fuel rest

/-- Python `s.replace(old, new)` for nonempty `old` (the program only
ever replaces the literal `"Bearer "`); for empty `old` the subject is
returned unchanged, a case the program never exercises. -/
def pyReplace (s old new : String) : String :=
  if old.data = [] then s
  else ⟨replaceFuel old.data new.data s.data.length s.data⟩

/-- The message constants of `src.messages` that the embedded code
returns, as stable reason codes. -/
inductive Msg where
  | TOKEN_IS_MISSING
  | INVALID_TOKEN_FORMAT
  | TOKEN_IS_INVALID
  | UNAUTHORIZED_USER
  | ERR_TOKEN_GENERATE
deriving DecidableEq, Repr

/-- Outcome of a decorated Flask handler: an error body with an HTTP
status, the wrapped handler's own response, or a Python exception
escaping the frame. -/
inductive Resp (α : Type) where
  | err (m : Msg) (status : Nat)
  | ok (a : α)
  | raised
deriving DecidableEq, Repr

/-- The blacklist key scheme used throughout the auth service. -/
def blacklistKey (token : String) : String :=
  "BLACKLIST_TOKEN_" ++ token

/-- The token string extracted from an `Authorization` header value:
`token.replace('Bearer ', '')`. -/
def stripBearer (header : String) : String :=
  pyReplace header "Bearer " ""

/-- Embedding of `token_provider.verify_token` (the decorator's inner
`decorated` function).  The external collaborators are parameters: the
flask cache read `cacheGet` and the jwt library's
`jwt.decode(·, SECRET_KEY, [ALGORITHM])`, which either fails (any
exception) or yields the decoded claim set. -/
def verify_token (cacheGet : String → Option String)
    (decode : String → Except Unit Claims)
    (f : Claims → Resp α) (authHeader : Option String) : Resp α :=
  match authHeader with
  | none => .err .TOKEN_IS_MISSING 401
  | some token =>
      if ¬ pyStartswith token "Bearer " then .err .INVALID_TOKEN_FORMAT 401
      else
        let token' := stripBearer token
        if truthyStr (cacheGet (blacklistKey token')) then
          .err .TOKEN_IS_INVALID 401
        else
          match decode token' with
          | .error _ => .err .TOKEN_IS_INVALID 401
          | .ok claims => f claims

/-- Embedding of `token_provider.admin_required`: `args[0]` is the
decoded claim set passed along by `verify_token`; a missing `is_admin`
key would raise a `KeyError` out of the frame. -/
def admin_required (f : Claims → Resp α) (claims : Claims) : Resp α :=
  match lookupClaim claims "is_admin" with
  | none => .raised
  | some v => if ¬ truthyVal v then .err .UNAUTHORIZED_USER 401 else f claims

/-! Claims codec: structural model of the jwt library plus the
`token_provider` issuance and email-verification functions. -/

/-- Fixed token validity in days (`ACCESS_TOKEN_EXPIRE = 30`). -/
def ACCESS_TOKEN_EXPIRE : Int := 30

/-- Seconds per day, placing the datetime arithmetic of
`datetime.utcnow() + timedelta(days=...)` on the Unix-timestamp scale
the jwt library serializes `exp` to. -/
def secondsPerDay : Int := 86400

/-- Structural model of a jwt wire token: a signed token is fully
determined by its payload, the signing secret and the algorithm name
(statelessness of the codec); anything else presented for decoding is
garbled.  The base64url serialization is elided: it is injective and
contains no space, so the program's `token.replace('Bearer ', '')` is
the identity on serialized tokens. -/
inductive Tok where
  | signed (payload : Claims) (secret : String) (alg : String)
  | garbled (id : Nat)
deriving DecidableEq, Repr

/-- Model of `jwt.encode(payload, secret, algorithm)`. -/
def jwt_encode (payload : Claims) (secret alg : String) : Tok :=
  .signed payload secret alg

/-- Model of `jwt.decode(tok, secret, algorithms=[alg])` evaluated at
time `now`: verifies the signature (a signed token whose secret and
algorithm match) and the expiration (an `exp` claim, when present, must
lie strictly in the future; a non-numeric `exp` is rejected). -/
def jwt_decode (t : Tok) (secret alg : String) (now : Int) : Except Unit Claims :=
  match t with
  | .garbled _ => .error ()
  | .signed p s a =>
      if s = secret ∧ a = alg then
        match lookupClaim p "exp" with
        | some (.int e) => if now < e then .ok p else .error ()
        | some _ => .error ()
        | none => .ok p
      else .error ()

/-- Embedding of `token_provider.create_token` evaluated at issuance
time `now`: the assignment `payload['exp'] = exp` mutates the caller's
dict in place, so the mutated dict is returned alongside the signed
token.  The `if not token` guard in the source is dead code: an encoded
token string is never falsy. -/
def create_token (secret alg : String) (now : Int) (payload : Claims) :
    Claims × Tok :=
  let exp : Int := now + ACCESS_TOKEN_EXPIRE * secondsPerDay
  let payload' := insertClaim payload "exp" (.int exp)
  (payload', jwt_encode payload' secret alg)

/-- Embedding of `token_provider.verify_token_email` evaluated at time
`now`: decode failure (`jwt.InvalidTokenError`) maps to the generic
invalid-token rejection. -/
def verify_token_email (secret alg : String) (now : Int) (t : Tok) :
    Except (Msg × Nat) Claims :=
  match jwt_decode t secret alg now with
  | .error _ => .error (.TOKEN_IS_INVALID, 401)
  | .ok c => .ok c

/-! Event dispatcher and subscriber (`KafkaService`). -/

/-- Python exceptions at the granularity the except clauses distinguish:
the `KafkaError` family versus everything else (TypeError from the json
serializer, ValueError from json decoding, and so on). -/
inductive PyExn where
  | kafkaError (msg : String)
  | otherError (msg : String)
deriving DecidableEq, Repr

/-- Result of a Python call frame: a normal return (with the log line
printed on the recovered path, if any) or an exception escaping to the
caller. -/
inductive CallResult where
  | ret (logged : Option String)
  | raised (e : PyExn)
deriving DecidableEq, Repr

/-- Behaviour of the kafka producer client during one publish call: the
constructor, `send` (which also runs the json `value_serializer`),
`flush` and `close` each either succeed or raise. -/
structure ProducerEnv (α : Type) where
  connect : Except PyExn Unit
  send : String → String → α → Except PyExn Unit
  flushRes : Except PyExn Unit
  closeRes : Except PyExn Unit

/-- The statement sequence inside the try block of
`KafkaService.producer`: constructor, send, flush, close; the first
exception aborts the sequence. -/
def producerBody (env : ProducerEnv α) (topic key : String) (value : α) :
    Except PyExn Unit := do
  env.connect
  env.send topic key value
  env.flushRes
  env.closeRes

/-- Embedding of `KafkaService.producer`: the surrounding
`try/except KafkaError` catches only the `KafkaError` family, printing
the error message; any other exception escapes to the caller. -/
def producer (env : ProducerEnv α) (topic key : String) (value : α) :
    CallResult :=
  match producerBody env topic key value with
  | .ok _ => .ret none
  | .error (.kafkaError m) => .ret (some ("Erro ao enviar a mensagem: " ++ m))
  | .error (.otherError m) => .raised (.otherError m)

/-- The subscriber's message loop (`for message in kafka_consumer` with
`callback(app, key, msg)` per message), over messages already decoded to
(key, payload) pairs; utf-8 and json decoding are elided (their failures
would likewise escape the loop).  Returns the messages whose callback
was invoked and the exception that ended the loop, if any. -/
def consumeLoop (cb : String → α → Except PyExn Unit) :
    List (String × α) → List (String × α) × Option PyExn
  | [] => ([], none)
  | (k, v) :: rest =>
      match cb k v with
      | .ok _ =>
          let r := consumeLoop cb rest
          ((k, v) :: r.1, r.2)
      | .error e => ([(k, v)], some e)

/-- Embedding of `KafkaService.consumer` after the broker wait: the
`try/except KafkaError` wraps the whole loop, not the callback of each
message, so it catches and logs only a `KafkaError` ending the loop;
any other exception escapes. -/
def consumer (cb : String → α → Except PyExn Unit)
    (msgs : List (String × α)) : List (String × α) × CallResult :=
  let r := consumeLoop cb msgs
  match r.2 with
  | none => (r.1, .ret none)
  | some (.kafkaError m) => (r.1, .ret (some ("Erro ao enviar a mensagem: " ++ m)))
  | some (.otherError m) => (r.1, .raised (.otherError m))

/-- Embedding of `KafkaService.is_broker_available` for one attempt:
constructing a `KafkaConsumer` either succeeds (True) or raises a
`KafkaError`, caught and mapped to False. -/
def is_broker_available (attempt : Except Unit Unit) : Bool :=
  match attempt with
  | .ok _ => true
  | .error _ => false

/-- Fuel-indexed embedding of `KafkaService.wait_for_broker` started at
probe index `i`: `while not is_broker_available(): sleep(1)`.  Each
failed probe costs one 1-second sleep; the result counts the sleeps
performed before returning, or is `none` when the fuel ran out with
every probe failing (the source loop has no retry bound). -/
def wait_for_broker (attempts : Nat → Except Unit Unit) :
    Nat → Nat → Option Nat
  | _, 0 => none
  | i, fuel + 1 =>
      if is_broker_available (attempts i) then some 0
      else (wait_for_broker attempts (i + 1) fuel).map (· + 1)

/-! Revocation writes of the user controller. -/

/-- One `cache.set` call: key, stored value, and the optional explicit
`timeout` argument (`none` when the source passes no timeout, leaving
the cache client's default expiry in force). -/
structure CacheSetCall where
  key : String
  value : String
  timeout : Option Nat
deriving DecidableEq, Repr

/-- The revocation write of `LogoutResource.get`:
`cache.set(f'BLACKLIST_TOKEN_{token}', f'{token}')` — no timeout
argument is passed. -/
def logout_revoke (token : String) : CacheSetCall :=
  ⟨blacklistKey token, token, none⟩

/-- The revocation write of `ResetPasswordResource.get`:
`cache.set(f'BLACKLIST_TOKEN_{token}', token, timeout=60*60*24*7)`. -/
def reset_password_revoke (token : String) : CacheSetCall :=
  ⟨blacklistKey token, token, some (60 * 60 * 24 * 7)⟩

/-- The revocation write of `ValidateEmailResource.get`:
`cache.set(f'BLACKLIST_TOKEN_{token}', token, timeout=60*60*24*7)`. -/
def validate_email_revoke (token : String) : CacheSetCall :=
  ⟨blacklistKey token, token, some (60 * 60 * 24 * 7)⟩

/-! Request correlation middleware and event payloads. -/

/-- Embedding of the before-request hook `add_transaction_id`: the
inbound `X-TRANSACTION-ID` header when truthy, else the freshly
generated uuid4 string. -/
def add_transaction_id (header : Option String) (freshUuid : String) :
    String :=
  if truthyStr header then header.getD "" else freshUuid

/-- The raw inbound header as a payload value:
`request.headers.get('X-TRANSACTION-ID')` is Python `None` when the
header is absent. -/
def rawHeaderVal (header : Option String) : Val :=
  match header with
  | some h => .str h
  | none => .pyNone

/-- The notification payload built by `ForgotPasswordResource.post`:
its `transaction_id` is the raw inbound header, not the middleware's
generated identifier. -/
def forgot_password_payload (header : Option String) (email url : String) :
    Claims :=
  [("transaction_id", rawHeaderVal header),
   ("email", .str email),
   ("subject", .str "Recovey Password"),
   ("template", .str ("<html><body><a href=\x27" ++ url
      ++ "\x27>Clique aqui</a></body></html>"))]

/-- The notification payload built by `SendEmailValidationResource.post`:
its `transaction_id` is likewise the raw inbound header. -/
def send_email_validation_payload (header : Option String)
    (email url : String) : Claims :=
  [("transaction_id", rawHeaderVal header),
   ("email", .str email),
   ("subject", .str "Account Validation"),
   ("template", .str ("<html><body><a href=\x27" ++ url
      ++ "\x27>Clique aqui</a></body></html>"))]

/-- The audit payload dict built by `register_request_log`: `params`
joins the resolved view-arg values with a comma and space (an empty
view-arg dict yields the empty string), `endpoint` is the matched route
template with a NOT_FOUND fallback, `duration` is the elapsed time since
the request's start timestamp (time instants modelled as integers). -/
def audit_payload (dtNow appName txid ip method : String)
    (urlRule : Option String) (viewArgs : List String) (status : Int)
    (now start : Int) : Claims :=
  [("datetime", .str dtNow),
   ("service", .str appName),
   ("transaction_id", .str txid),
   ("ip", .str ip),
   ("method", .str method),
   ("endpoint", .str (urlRule.getD "NOT_FOUND")),
   ("params", .str (String.intercalate ", " viewArgs)),
   ("status", .int status),
   ("duration", .int (now - start))]

/-- A publish handed to a freshly started thread
(`Thread(target=KafkaService().producer, args=...).start()`): the
request path returns without waiting on the thread. -/
structure ThreadDispatch where
  topic : Option String
  key : String
  payload : Claims
deriving DecidableEq, Repr

/-- Embedding of the after-request hook `register_request_log`: the
liveness probe route (endpoint name `health`) returns the response with
no dispatch; every other route returns the unchanged response together
with exactly one audit publish dispatched on a new thread, keyed by the
application name on the `TOPIC_REQUESTS_LOG` topic. -/
def register_request_log {ρ : Type} (endpointName : Option String)
    (topicEnv : Option String) (dtNow appName txid ip method : String)
    (urlRule : Option String) (viewArgs : List String) (status : Int)
    (now start : Int) (response : ρ) : ρ × Option ThreadDispatch :=
  if endpointName = some "health" then (response, none)
  else
    (response,
      some ⟨topicEnv, appName,
        audit_payload dtNow appName txid ip method urlRule viewArgs
          status now start⟩)

/-! Sample environments shared by the witnesses. -/

/-- Sample cache state: exactly one revoked token key is present. -/
def sampleCacheGet : String → Option String :=
  fun k => if k = "BLACKLIST_TOKEN_revoked1" then some "revoked1" else none

/-- Sample jwt decode: one well-formed token decodes to an admin claim
set, one to a non-admin claim set, everything else fails. -/
def sampleDecode : String → Except Unit Claims :=
  fun s =>
    if s = "good" then .ok [("is_admin", Val.bool true)]
    else if s = "plain" then .ok [("is_admin", Val.bool false)]
    else .error ()

/-- Sample wrapped handler. -/
def sampleHandler : Claims → Resp Nat := fun _ => .ok 7

/-- Sample producer environment whose send raises a serializer
`TypeError` (not a `KafkaError`). -/
def typeErrorSendEnv : ProducerEnv Nat :=
  ⟨.ok (), fun _ _ _ => .error (.otherError "TypeError"), .ok (), .ok ()⟩

/-- Sample producer environment whose send raises a `KafkaError`. -/
def kafkaErrorSendEnv : ProducerEnv Nat :=
  ⟨.ok (), fun _ _ _ => .error (.kafkaError "timeout"), .ok (), .ok ()⟩

/-- Sample subscriber callback that raises a `ValueError` on key k1 and
succeeds elsewhere. -/
def failingHandler : String → Nat → Except PyExn Unit :=
  fun k _ => if k = "k1" then .error (.otherError "ValueError") else .ok ()

/-- Sample broker availability: the first two probes raise, the third
succeeds. -/
def sampleAttempts : Nat → Except Unit Unit :=
  fun n => if n = 2 then .ok () else .error ()

/-- Looking up the key just written finds the written value. -/
theorem lookupClaim_insertClaim_self (c : Claims) (k : String) (v : Val) :
    lookupClaim (insertClaim c k v) k = some v := by
  induction c with
  | nil => simp [insertClaim, lookupClaim]
  | cons kv rest ih =>
      obtain ⟨k', v'⟩ := kv
      by_cases hk : k' = k <;> simp [insertClaim, lookupClaim, hk, ih]

/-- Writing one key leaves every other key's binding unchanged. -/
theorem lookupClaim_insertClaim_ne (c : Claims) (k k' : String) (v : Val)
    (hne : k' ≠ k) :
    lookupClaim (insertClaim c k v) k' = lookupClaim c k' := by
  induction c with
  | nil => simp [insertClaim, lookupClaim, Ne.symm hne]
  | cons kv rest ih =>
      obtain ⟨k0, v0⟩ := kv
      by_cases hk : k0 = k
      · subst hk
        simp [insertClaim, lookupClaim, Ne.symm hne]
      · by_cases hk' : k0 = k'
        · simp [insertClaim, lookupClaim, hk, hk', hne]
        · simp [insertClaim, lookupClaim, hk, hk', ih]

/-- Inserting an absent key appends the new binding at the end of the
dict, preserving insertion order. -/
theorem insertClaim_of_lookup_none (c : Claims) (k : String) (v : Val)
    (habs : lookupClaim c k = none) :
    insertClaim c k v = c ++ [(k, v)] := by
  induction c with
  | nil => simp [insertClaim]
  | cons kv rest ih =>
      obtain ⟨k0, v0⟩ := kv
      by_cases hk : k0 = k
      · simp [lookupClaim, hk] at habs
      · simp [lookupClaim, hk] at habs
        simp [insertClaim, hk, ih habs]

/-- C1: the authentication guard follows the spec's state machine: no
`Authorization` header rejects with the missing-token code; a header
without the `Bearer ` prefix rejects with the bad-format code; a
blacklisted token key rejects with the generic invalid code; a decode
failure rejects with the same generic invalid code; a successful decode
invokes the wrapped handler on the decoded claim set; and the admin
gate rejects a claim set with `is_admin` false with the unauthorized
code while `is_admin` true passes the request through unchanged.  Every
rejection carries HTTP status 401. -/
theorem auth_guard_state_machine {α β : Type}
    (cacheGet : String → Option String) (decode : String → Except Unit Claims)
    (f : Claims → Resp α) (g : Claims → Resp β) :
    (verify_token cacheGet decode f none = .err .TOKEN_IS_MISSING 401)
    ∧ (∀ h, pyStartswith h "Bearer " = false →
        verify_token cacheGet decode f (some h) = .err .INVALID_TOKEN_FORMAT 401)
    ∧ (∀ h, pyStartswith h "Bearer " = true →
        truthyStr (cacheGet (blacklistKey (stripBearer h))) = true →
        verify_token cacheGet decode f (some h) = .err .TOKEN_IS_INVALID 401)
    ∧ (∀ h e, pyStartswith h "Bearer " = true →
        truthyStr (cacheGet (blacklistKey (stripBearer h))) = false →
        decode (stripBearer h) = .error e →
        verify_token cacheGet decode f (some h) = .err .TOKEN_IS_INVALID 401)
    ∧ (∀ h c, pyStartswith h "Bearer " = true →
        truthyStr (cacheGet (blacklistKey (stripBearer h))) = false →
        decode (stripBearer h) = .ok c →
        verify_token cacheGet decode f (some h) = f c)
    ∧ (∀ c, lookupClaim c "is_admin" = some (.bool false) →
        admin_required g c = .err .UNAUTHORIZED_USER 401)
    ∧ (∀ c, lookupClaim c "is_admin" = some (.bool true) →
        admin_required g c = g c) := by
  refine ⟨rfl, ?_, ?_, ?_, ?_, ?_, ?_⟩
  · intro h hs; simp [verify_token, hs]
  · intro h hs hrev; simp [verify_token, hs, hrev]
  · intro h e hs hrev hdec; simp [verify_token, hs, hrev, hdec]
  · intro h c hs hrev hdec; simp [verify_token, hs, hrev, hdec]
  · intro c hadm; simp [admin_required, hadm, truthyVal]
  · intro c hadm; simp [admin_required, hadm, truthyVal]

/-- Witness for C1: the state machine exercised on concrete headers
against the sample cache, decoder and handler. -/
theorem auth_guard_state_machine_witness :
    (verify_token sampleCacheGet sampleDecode sampleHandler none
      = .err .TOKEN_IS_MISSING 401)
    ∧ (verify_token sampleCacheGet sampleDecode sampleHandler (some "xyz")
      = .err .INVALID_TOKEN_FORMAT 401)
    ∧ (verify_token sampleCacheGet sampleDecode sampleHandler
        (some "Bearer revoked1") = .err .TOKEN_IS_INVALID 401)
    ∧ (verify_token sampleCacheGet sampleDecode sampleHandler
        (some "Bearer bad") = .err .TOKEN_IS_INVALID 401)
    ∧ (verify_token sampleCacheGet sampleDecode sampleHandler
        (some "Bearer good") = .ok 7)
    ∧ (admin_required sampleHandler [("is_admin", Val.bool false)]
      = .err .UNAUTHORIZED_USER 401)
    ∧ (admin_required sampleHandler [("is_admin", Val.bool true)] = .ok 7) := by
  obtain ⟨h1, h2, h3, h4, h5, h6, h7⟩ :=
    auth_guard_state_machine sampleCacheGet sampleDecode sampleHandler sampleHandler
  exact ⟨h1, h2 "xyz" (by decide),
    h3 "Bearer revoked1" (by decide) (by decide),
    h4 "Bearer bad" () (by decide) (by decide) (by decide),
    h5 "Bearer good" [("is_admin", Val.bool true)] (by decide) (by decide)
      (by decide),
    h6 [("is_admin", Val.bool false)] (by decide),
    h7 [("is_admin", Val.bool true)] (by decide)⟩

/-- C7: noninterference of rejection causes.  For any two well-formed
Bearer headers, one rejected because its stripped token key is revoked
and the other rejected because decoding fails, the guard's caller-visible
responses are identical: the same generic invalid-token message with the
same 401 status, revealing nothing about which check failed. -/
theorem rejection_noninterference {α : Type}
    (cacheGet : String → Option String) (decode : String → Except Unit Claims)
    (f : Claims → Resp α) (h1 h2 : String) (e : Unit)
    (hs1 : pyStartswith h1 "Bearer " = true)
    (hrev : truthyStr (cacheGet (blacklistKey (stripBearer h1))) = true)
    (hs2 : pyStartswith h2 "Bearer " = true)
    (hnorev : truthyStr (cacheGet (blacklistKey (stripBearer h2))) = false)
    (hdec : decode (stripBearer h2) = .error e) :
    verify_token cacheGet decode f (some h1)
      = verify_token cacheGet decode f (some h2)
    ∧ verify_token cacheGet decode f (some h1) = .err .TOKEN_IS_INVALID 401 := by
  have hA : verify_token cacheGet decode f (some h1) = .err .TOKEN_IS_INVALID 401 := by
    simp [verify_token, hs1, hrev]
  have hB : verify_token cacheGet decode f (some h2) = .err .TOKEN_IS_INVALID 401 := by
    simp [verify_token, hs2, hnorev, hdec]
  exact ⟨hA.trans hB.symm, hA⟩

/-- Witness for C7: a revoked token and an undecodable token produce
literally equal responses under the sample environment. -/
theorem rejection_noninterference_witness :
    verify_token sampleCacheGet sampleDecode sampleHandler (some "Bearer revoked1")
      = verify_token sampleCacheGet sampleDecode sampleHandler (some "Bearer bad")
    ∧ verify_token sampleCacheGet sampleDecode sampleHandler (some "Bearer revoked1")
      = .err .TOKEN_IS_INVALID 401 :=
  rejection_noninterference sampleCacheGet sampleDecode sampleHandler
    "Bearer revoked1" "Bearer bad" () (by decide) (by decide) (by decide)
    (by decide) (by decide)

/-- C2: round-trip of the claims codec.  For every claim set without an
expiration field, decoding (with the same secret and algorithm) the
token produced by issuing it yields the claim set plus an `exp` field
equal to the issuance time plus the fixed 30-day validity, provided the
decode happens strictly before that expiration instant. -/
theorem token_roundtrip (secret alg : String) (now nowDec : Int)
    (payload : Claims)
    (habs : lookupClaim payload "exp" = none)
    (hfresh : nowDec < now + ACCESS_TOKEN_EXPIRE * secondsPerDay) :
    verify_token_email secret alg nowDec (create_token secret alg now payload).2
      = .ok (insertClaim payload "exp"
          (.int (now + ACCESS_TOKEN_EXPIRE * secondsPerDay)))
    ∧ insertClaim payload "exp" (.int (now + ACCESS_TOKEN_EXPIRE * secondsPerDay))
      = payload ++ [("exp", Val.int (now + ACCESS_TOKEN_EXPIRE * secondsPerDay))] := by
  constructor
  · simp [verify_token_email, create_token, jwt_encode, jwt_decode,
      lookupClaim_insertClaim_self, hfresh]
  · exact insertClaim_of_lookup_none payload "exp" _ habs

/-- Witness for C2: a concrete email claim set round-trips, five seconds
after issuance, to the claim set plus the computed expiration. -/
theorem token_roundtrip_witness :
    verify_token_email "s" "HS256" 5
        (create_token "s" "HS256" 0 [("email", Val.str "a@b.com")]).2
      = .ok (insertClaim [("email", Val.str "a@b.com")] "exp" (.int 2592000))
    ∧ insertClaim [("email", Val.str "a@b.com")] "exp" (.int 2592000)
      = [("email", Val.str "a@b.com")] ++ [("exp", Val.int 2592000)] :=
  token_roundtrip "s" "HS256" 0 5 [("email", Val.str "a@b.com")]
    (by decide) (by decide)

/-- C10: token issuance mutates its input.  The mapping handed to
`create_token` comes back with the `exp` key bound to issuance time plus
the validity duration, every other key unchanged, and the token is
signed over that mutated mapping. -/
theorem create_token_mutates_payload (secret alg : String) (now : Int)
    (payload : Claims) :
    (create_token secret alg now payload).1
      = insertClaim payload "exp"
          (.int (now + ACCESS_TOKEN_EXPIRE * secondsPerDay))
    ∧ lookupClaim (create_token secret alg now payload).1 "exp"
      = some (.int (now + ACCESS_TOKEN_EXPIRE * secondsPerDay))
    ∧ (∀ k, k ≠ "exp" →
        lookupClaim (create_token secret alg now payload).1 k
          = lookupClaim payload k)
    ∧ (create_token secret alg now payload).2
      = jwt_encode (create_token secret alg now payload).1 secret alg := by
  refine ⟨rfl, lookupClaim_insertClaim_self _ _ _, ?_, rfl⟩
  intro k hk
  exact lookupClaim_insertClaim_ne payload "exp" k _ hk

/-- Witness for C10: on a concrete payload the email binding survives
the in-place insertion of the computed expiration. -/
theorem create_token_mutates_payload_witness :
    lookupClaim (create_token "s" "HS256" 0 [("email", Val.str "u1")]).1 "email"
      = some (Val.str "u1")
    ∧ (create_token "s" "HS256" 0 [("email", Val.str "u1")]).1
      = [("email", Val.str "u1"), ("exp", Val.int 2592000)] :=
  ⟨(create_token_mutates_payload "s" "HS256" 0
      [("email", Val.str "u1")]).2.2.1 "email" (by decide), by decide⟩

/-- C3 counterexample: the publish call catches only the `KafkaError`
family, so a serializer `TypeError` raised during send escapes to the
caller rather than being logged and swallowed. -/
theorem producer_counterexample :
    producer typeErrorSendEnv "topic1" "key1" 0
      = .raised (.otherError "TypeError") := by decide

/-- C3 (amended): a publish failure of the `KafkaError` family is caught
and logged and the call returns normally; a successful publish returns
normally; but an exception outside that family (e.g. a serializer
`TypeError`) propagates to the caller. -/
theorem producer_exception_handling {α : Type} (env : ProducerEnv α)
    (topic key : String) (value : α) :
    (producerBody env topic key value = .ok () →
      producer env topic key value = .ret none)
    ∧ (∀ m, producerBody env topic key value = .error (.kafkaError m) →
      producer env topic key value
        = .ret (some ("Erro ao enviar a mensagem: " ++ m)))
    ∧ (∀ m, producerBody env topic key value = .error (.otherError m) →
      producer env topic key value = .raised (.otherError m)) := by
  refine ⟨?_, ?_, ?_⟩
  · intro h; simp [producer, h]
  · intro m h; simp [producer, h]
  · intro m h; simp [producer, h]

/-- Witness for C3 (amended): a send raising a `KafkaError` is logged
and the call returns normally. -/
theorem producer_exception_handling_witness :
    producer kafkaErrorSendEnv "topic1" "key1" 0
      = .ret (some ("Erro ao enviar a mensagem: " ++ "timeout")) :=
  (producer_exception_handling kafkaErrorSendEnv "topic1" "key1" 0).2.1
    "timeout" (by decide)

/-- C5 counterexample: a handler exception on the first of two messages
is not caught per message: the loop stops, the second message is never
processed, and a non-`KafkaError` exception escapes the subscriber. -/
theorem handler_failure_counterexample :
    consumer failingHandler [("k1", 1), ("k2", 2)]
      = ([("k1", 1)], .raised (.otherError "ValueError")) := by decide

/-- C5 (amended): a handler exception terminates the message loop at the
failing message — it is not retried and no later message of the batch is
processed; a `KafkaError` is caught and logged at loop level (the
subscriber call returns), any other exception escapes; only a handler
success lets the loop continue with the next message. -/
theorem handler_failure_stops_loop {α : Type}
    (cb : String → α → Except PyExn Unit) (k : String) (v : α)
    (rest : List (String × α)) :
    (∀ e, cb k v = .error e →
      consumeLoop cb ((k, v) :: rest) = ([(k, v)], some e))
    ∧ (∀ m, cb k v = .error (.kafkaError m) →
      consumer cb ((k, v) :: rest)
        = ([(k, v)], .ret (some ("Erro ao enviar a mensagem: " ++ m))))
    ∧ (∀ m, cb k v = .error (.otherError m) →
      consumer cb ((k, v) :: rest) = ([(k, v)], .raised (.otherError m)))
    ∧ (cb k v = .ok () →
      consumeLoop cb ((k, v) :: rest)
        = ((k, v) :: (consumeLoop cb rest).1, (consumeLoop cb rest).2)) := by
  refine ⟨?_, ?_, ?_, ?_⟩
  · intro e h; simp [consumeLoop, h]
  · intro m h; simp [consumer, consumeLoop, h]
  · intro m h; simp [consumer, consumeLoop, h]
  · intro h; simp [consumeLoop, h]

/-- Witness for C5 (amended): a concrete failing handler ends the
subscriber with the exception escaping. -/
theorem handler_failure_stops_loop_witness :
    consumer failingHandler [("k1", 7)]
      = ([("k1", 7)], .raised (.otherError "ValueError")) :=
  (handler_failure_stops_loop failingHandler "k1" 7 []).2.2.1
    "ValueError" (by decide)

/-- One-step unfolding of the wait loop. -/
theorem wait_for_broker_succ (attempts : Nat → Except Unit Unit)
    (i fuel : Nat) :
    wait_for_broker attempts i (fuel + 1)
      = if is_broker_available (attempts i) then some 0
        else (wait_for_broker attempts (i + 1) fuel).map (· + 1) := rfl

/-- The wait loop returns only on a successful probe: a result of `k`
sleeps means probe `i + k` succeeded and every earlier probe failed. -/
theorem wait_for_broker_sound (attempts : Nat → Except Unit Unit) :
    ∀ fuel i k, wait_for_broker attempts i fuel = some k →
      is_broker_available (attempts (i + k)) = true
      ∧ ∀ j, j < k → is_broker_available (attempts (i + j)) = false := by
  intro fuel
  induction fuel with
  | zero => intro i k h; simp [wait_for_broker] at h
  | succ n ih =>
      intro i k h
      by_cases hav : is_broker_available (attempts i) = true
      · simp [wait_for_broker, hav] at h
        subst h
        exact ⟨by simpa using hav, fun j hj => absurd hj (Nat.not_lt_zero j)⟩
      · have hav' : is_broker_available (attempts i) = false := by
          simpa using hav
        simp [wait_for_broker, hav'] at h
        obtain ⟨k', hk', hkk⟩ := h
        obtain ⟨h1, h2⟩ := ih (i + 1) k' hk'
        subst hkk
        refine ⟨?_, ?_⟩
        · have harith : i + (k' + 1) = (i + 1) + k' := by omega
          rw [harith]; exact h1
        · intro j hj
          cases j with
          | zero => simpa using hav'
          | succ j' =>
              have harith : i + (j' + 1) = (i + 1) + j' := by omega
              rw [harith]
              exact h2 j' (by omega)

/-- If some probe succeeds, enough fuel makes the loop return, after at
most that many sleeps. -/
theorem wait_for_broker_terminates (attempts : Nat → Except Unit Unit) :
    ∀ m i, is_broker_available (attempts (i + m)) = true →
      ∃ k, k ≤ m ∧ wait_for_broker attempts i (m + 1) = some k := by
  intro m
  induction m with
  | zero =>
      intro i h
      exact ⟨0, Nat.le_refl 0,
        by simp [wait_for_broker, show is_broker_available (attempts i) = true
          from by simpa using h]⟩
  | succ n ih =>
      intro i h
      by_cases hav : is_broker_available (attempts i) = true
      · exact ⟨0, Nat.zero_le _, by simp [wait_for_broker, hav]⟩
      · have hav' : is_broker_available (attempts i) = false := by
          simpa using hav
        have h' : is_broker_available (attempts ((i + 1) + n)) = true := by
          have harith : (i + 1) + n = i + (n + 1) := by omega
          rw [harith]; exact h
        obtain ⟨k, hk, hw⟩ := ih (i + 1) h'
        refine ⟨k + 1, by omega, ?_⟩
        rw [wait_for_broker_succ, hw]
        simp [hav']

/-- While every probe fails, the loop never returns, whatever the fuel. -/
theorem wait_for_broker_diverges (attempts : Nat → Except Unit Unit)
    (hall : ∀ n, is_broker_available (attempts n) = false) :
    ∀ fuel i, wait_for_broker attempts i fuel = none := by
  intro fuel
  induction fuel with
  | zero => intro i; rfl
  | succ n ih => intro i; simp [wait_for_broker, hall i, ih]

/-- C9: the broker-availability wait loop returns only when a probe
reports the broker available, with one fixed 1-second sleep per failed
probe (a result of `k` sleeps means the first `k` probes failed and
probe `k` succeeded); under the precondition that some probe succeeds
the loop terminates within that many iterations; and while every probe
keeps failing it never returns — there is no maximum retry bound. -/
theorem wait_for_broker_spec (attempts : Nat → Except Unit Unit) :
    (∀ i fuel k, wait_for_broker attempts i fuel = some k →
      is_broker_available (attempts (i + k)) = true
      ∧ ∀ j, j < k → is_broker_available (attempts (i + j)) = false)
    ∧ (∀ i m, is_broker_available (attempts (i + m)) = true →
      ∃ k, k ≤ m ∧ wait_for_broker attempts i (m + 1) = some k)
    ∧ ((∀ n, is_broker_available (attempts n) = false) →
      ∀ fuel i, wait_for_broker attempts i fuel = none) :=
  ⟨fun i fuel k h => wait_for_broker_sound attempts fuel i k h,
   fun i m h => wait_for_broker_terminates attempts m i h,
   fun hall fuel i => wait_for_broker_diverges attempts hall fuel i⟩

/-- Witness for C9: with the sample probe sequence the loop returns
after exactly two sleeps, the succeeding probe is the third, and the
second probe had failed. -/
theorem wait_for_broker_spec_witness :
    is_broker_available (sampleAttempts (0 + 2)) = true
    ∧ is_broker_available (sampleAttempts (0 + 1)) = false := by
  obtain ⟨sound, _, _⟩ := wait_for_broker_spec sampleAttempts
  have h := sound 0 5 2 (by decide)
  exact ⟨h.1, h.2 1 (by decide)⟩

/-- C4 counterexample: the logout revocation write passes no timeout at
all, so the entry's TTL is not the token's remaining validity (for a
just-issued token that would be the full 30-day validity, 2592000
seconds). -/
theorem revocation_ttl_counterexample :
    (logout_revoke "tok1").timeout = none
    ∧ (logout_revoke "tok1").timeout ≠ some 2592000 := by decide

/-- C4 (amended): all three revocation writes key the entry as
`BLACKLIST_TOKEN_<token>`; the single-use action-token writes
(password-reset completion, email-validation completion) attach a fixed
7-day TTL; the logout write passes no explicit TTL, leaving the cache
client's default expiry in force rather than the token's remaining
validity. -/
theorem revocation_keys_and_ttl (token : String) :
    (logout_revoke token).key = "BLACKLIST_TOKEN_" ++ token
    ∧ (reset_password_revoke token).key = "BLACKLIST_TOKEN_" ++ token
    ∧ (validate_email_revoke token).key = "BLACKLIST_TOKEN_" ++ token
    ∧ (reset_password_revoke token).timeout = some 604800
    ∧ (validate_email_revoke token).timeout = some 604800
    ∧ (logout_revoke token).timeout = none :=
  ⟨rfl, rfl, rfl, rfl, rfl, rfl⟩

/-- C6 counterexample: with the correlation header absent, the
middleware generates a fresh identifier, but the password-recovery and
account-validation event payloads carry the raw absent header — Python
`None` — not the generated identifier. -/
theorem txid_counterexample :
    add_transaction_id none "uuid-1234" = "uuid-1234"
    ∧ lookupClaim (forgot_password_payload none "a@b.com" "url1")
        "transaction_id" = some Val.pyNone
    ∧ lookupClaim (send_email_validation_payload none "a@b.com" "url1")
        "transaction_id" = some Val.pyNone
    ∧ Val.pyNone ≠ Val.str "uuid-1234" := by decide

/-- C6 (amended): when the header is absent a fresh identifier is
generated and used as the audit event's transaction_id; when present
(and nonempty) the header value is used.  The notification payloads,
however, copy the raw inbound header, so they carry the header value
when present and Python `None` — not the generated identifier — when
absent. -/
theorem txid_propagation (header : Option String)
    (freshUuid em url dt app ip method : String) (status now start : Int) :
    (header = none → add_transaction_id header freshUuid = freshUuid)
    ∧ (∀ h, header = some h → h ≠ "" →
        add_transaction_id header freshUuid = h)
    ∧ lookupClaim (audit_payload dt app (add_transaction_id header freshUuid)
        ip method none [] status now start) "transaction_id"
      = some (.str (add_transaction_id header freshUuid))
    ∧ lookupClaim (forgot_password_payload header em url) "transaction_id"
      = some (rawHeaderVal header)
    ∧ lookupClaim (send_email_validation_payload header em url) "transaction_id"
      = some (rawHeaderVal header)
    ∧ (header = none → rawHeaderVal header = Val.pyNone) := by
  refine ⟨?_, ?_, rfl, rfl, rfl, ?_⟩
  · intro h; subst h; simp [add_transaction_id, truthyStr]
  · intro h hh hne; subst hh; simp [add_transaction_id, truthyStr, hne]
  · intro h; subst h; rfl

/-- Witness for C6 (amended): with the header present both the
middleware identifier and the notification payload agree on the header
value. -/
theorem txid_propagation_witness :
    add_transaction_id (some "abc") "u9" = "abc"
    ∧ lookupClaim (forgot_password_payload (some "abc") "a@b.com" "url1")
        "transaction_id" = some (Val.str "abc") := by
  obtain ⟨h1, h2, h3, h4, h5, h6⟩ :=
    txid_propagation (some "abc") "u9" "a@b.com" "url1" "dt" "app" "ip"
      "GET" 200 3 1
  exact ⟨h2 "abc" rfl (by decide), h4⟩

/-- C8: for every completed request the after-request hook leaves the
response unchanged and, unless the matched endpoint is the liveness
probe, hands exactly one audit publish to a fresh thread (so the
response does not wait on it); the audit payload holds exactly the
fields datetime, service, transaction_id, ip, method, endpoint, params,
status and duration, in that order, with endpoint the matched route
template and params the resolved path parameters joined as text; the
liveness probe produces no audit event. -/
theorem audit_event_per_request {ρ : Type}
    (endpointName topicEnv : Option String) (dt app txid ip method : String)
    (urlRule : Option String) (viewArgs : List String)
    (status now start : Int) (response : ρ) :
    (endpointName = some "health" →
      register_request_log endpointName topicEnv dt app txid ip method
        urlRule viewArgs status now start response = (response, none))
    ∧ (endpointName ≠ some "health" →
      register_request_log endpointName topicEnv dt app txid ip method
        urlRule viewArgs status now start response
        = (response, some ⟨topicEnv, app,
            audit_payload dt app txid ip method urlRule viewArgs
              status now start⟩))
    ∧ (audit_payload dt app txid ip method urlRule viewArgs status
        now start).map Prod.fst
      = ["datetime", "service", "transaction_id", "ip", "method",
         "endpoint", "params", "status", "duration"]
    ∧ (∀ r, urlRule = some r →
        lookupClaim (audit_payload dt app txid ip method urlRule viewArgs
          status now start) "endpoint" = some (.str r))
    ∧ lookupClaim (audit_payload dt app txid ip method urlRule viewArgs
        status now start) "params"
      = some (.str (String.intercalate ", " viewArgs))
    ∧ lookupClaim (audit_payload dt app txid ip method urlRule viewArgs
        status now start) "transaction_id" = some (.str txid) := by
  refine ⟨?_, ?_, rfl, ?_, rfl, rfl⟩
  · intro h; simp [register_request_log, h]
  · intro h; simp [register_request_log, h]
  · intro r hr; subst hr; rfl

/-- Witness for C8: the liveness probe yields no dispatch while an
ordinary route yields exactly one threaded audit dispatch whose endpoint
field is the matched route template. -/
theorem audit_event_per_request_witness :
    register_request_log (some "health") (some "topic.logs") "dt" "app"
        "tx" "ip" "GET" (some "/health/") [] 200 3 1 (0 : Nat)
      = ((0 : Nat), none)
    ∧ register_request_log (some "index") (some "topic.logs") "dt" "app"
        "tx" "ip" "GET" (some "/users/<uuid>/") ["u1"] 200 3 1 (0 : Nat)
      = ((0 : Nat), some ⟨some "topic.logs", "app",
          audit_payload "dt" "app" "tx" "ip" "GET" (some "/users/<uuid>/")
            ["u1"] 200 3 1⟩)
    ∧ lookupClaim (audit_payload "dt" "app" "tx" "ip" "GET"
        (some "/users/<uuid>/") ["u1"] 200 3 1) "endpoint"
      = some (.str "/users/<uuid>/") :=
  ⟨(audit_event_per_request (some "health") (some "topic.logs") "dt" "app"
      "tx" "ip" "GET" (some "/health/") [] 200 3 1 (0 : Nat)).1 rfl,
   (audit_event_per_request (some "index") (some "topic.logs") "dt" "app"
      "tx" "ip" "GET" (some "/users/<uuid>/") ["u1"] 200 3 1 (0 : Nat)).2.1
      (by decide),
   (audit_event_per_request (some "index") (some "topic.logs") "dt" "app"
      "tx" "ip" "GET" (some "/users/<uuid>/") ["u1"] 200 3 1
      (0 : Nat)).2.2.2.1 "/users/<uuid>/" rfl⟩

end QueueOrq
